import Mathlib

/-! TryAngle Gate System - a verification development for the dual-pipeline
analysis orchestrator implemented in `frontend/MobileUploadView.tsx` (App
component: credential pool, retry wrapper `callGptWithRetry`, report
normalizer `processReport`, history cache `saveToHistory`, orchestration
`runAnalysis`) together with `frontend/constants.ts` (`MOCK_ANALYSIS_RESULT`).

Modelling conventions:
* JS numbers are embedded as `ℚ` (the scores involved are exact decimals);
  `Math.round` is `⌊x + 1/2⌋`, its round-half-up semantics.
* JS `undefined` / `null` / absent fields are `Option`.
* Thrown errors and network outcomes are explicit sum types.
* `JSON.parse` is an oracle parameter (a host primitive), threaded through
  `runAnalysis`; the fence-stripping the code performs on the text before
  parsing is embedded concretely over `List Char`.
-/

namespace TryAngle

/-- `status` field of a gate: `'passed' | 'warning' | 'failed'`. -/
inductive GateStatus where
  | passed
  | warning
  | failed
deriving DecidableEq

/-- One side of the gate-3 (compression) details payload:
`{ "val": number, "label": string }`.  `label` is optional because the
rescale branch of `processReport` can manufacture a side object whose only
field is `val` (spreading a JS `undefined` reference). -/
structure CompSide where
  val : ℚ
  label : Option String
deriving DecidableEq

/-- One side of the gate-0 (aspect-ratio) details payload. -/
structure DimSide where
  width : ℚ
  height : ℚ
  ratio : ℚ
  label : String
deriving DecidableEq

/-- `shotType` part of the gate-1 payload. -/
structure ShotType where
  current : String
  reference : String
  score : ℚ
deriving DecidableEq

/-- `subjectSize` part of the gate-1 payload. -/
structure SubjectSize where
  current : ℚ
  reference : ℚ
  score : ℚ
  diff : ℚ
deriving DecidableEq

/-- `margins.horizontal` part of the gate-1 payload. -/
structure HMargins where
  currentLeft : ℚ
  currentRight : ℚ
  refLeft : ℚ
  refRight : ℚ
  status : String
  score : ℚ
deriving DecidableEq

/-- `margins.vertical` part of the gate-1 payload. -/
structure VMargins where
  currentTop : ℚ
  currentBottom : ℚ
  refTop : ℚ
  refBottom : ℚ
  status : String
  score : ℚ
deriving DecidableEq

/-- `margins` part of the gate-1 payload. -/
structure Margins where
  horizontal : HMargins
  vertical : VMargins
  bottomIssue : String
deriving DecidableEq

/-- Gate-1 (framing) details payload. -/
structure FramingPayload where
  shotType : ShotType
  subjectSize : SubjectSize
  margins : Margins
deriving DecidableEq

/-- A point of the gate-2 `facePosition` payload; `grid` appears in the
deterministic backend's output, `score` in the remote evaluator's schema. -/
structure FacePoint where
  x : ℚ
  y : ℚ
  grid : Option String
deriving DecidableEq

/-- Gate-2 (composition) details payload. -/
structure FacePosition where
  current : FacePoint
  reference : FacePoint
  score : Option ℚ
deriving DecidableEq

/-- The gate-specific `details` payload.  `processReport` reads only
`details.current?.val` / `details.reference?.val`, which exist exactly on the
gate-3 `compression` shape; every other shape is carried through verbatim
(and a JS read of `.current?.val` on it yields `undefined`). -/
inductive GateDetails where
  | dims (current reference : DimSide)
  | framing (payload : FramingPayload)
  | composition (facePosition : FacePosition)
  | compression (current reference : Option CompSide)
  | pose (shoulderTilt : ℚ)
deriving DecidableEq

/-- `GateResult` from `frontend/types.ts`. -/
structure GateResult where
  gateId : ℕ
  title : String
  status : GateStatus
  score : ℚ
  description : String
  details : Option GateDetails
  feedback : List String
deriving DecidableEq

/-- The `summary` block of an `AnalysisReport`. -/
structure ReportSummary where
  aspectRatioScore : ℚ
  framingScore : ℚ
  compositionScore : ℚ
  compressionScore : ℚ
deriving DecidableEq

/-- `AnalysisReport` from `frontend/types.ts`.  `summary` is optional
because `processReport` guards on its truthiness (`if (report.summary)`). -/
structure AnalysisReport where
  timestamp : String
  processingTime : ℚ
  finalScore : ℚ
  gates : List GateResult
  summary : Option ReportSummary
  overallFeedback : String
deriving DecidableEq

/-- `HistoryItem` from `frontend/types.ts`. -/
structure HistoryItem where
  id : String
  timestamp : String
  refImageBase64 : String
  userImageBase64 : String
  apiResult : AnalysisReport
  algoResult : AnalysisReport
deriving DecidableEq

/-- JS `Math.round`: round half toward positive infinity. -/
def jsRound (x : ℚ) : ℤ := ⌊x + 1 / 2⌋

/-- `const toOneDecimal = (num: number) => Math.round(num * 10) / 10;` -/
def toOneDecimal (num : ℚ) : ℚ := (jsRound (num * 10) : ℚ) / 10

/-- The body of the `report.gates.map(g => ...)` inside `processReport`:
round the gate score, and on the remote path rescale a gate-3 compression
value reported on the 0-100 scale back to 0-1.  The rescale triggers only
when `isGptApi`, `g.gateId === 3`, `g.details` is truthy and
`g.details.current?.val > 1`; it rewrites `current.val` to `val / 100` and
`reference` to `{...reference, val: (reference?.val || 0) / 100}`. -/
def processGate (isGptApi : Bool) (g : GateResult) : GateResult :=
  let processed := { g with score := toOneDecimal g.score }
  if isGptApi && g.gateId == 3 then
    match g.details with
    | some (GateDetails.compression (some c) refr) =>
      if 1 < c.val then
        { processed with
            details := some (GateDetails.compression
              (some { c with val := c.val / 100 })
              (some { val := (refr.map CompSide.val).getD 0 / 100
                      label := refr.bind CompSide.label })) }
      else processed
    | _ => processed
  else processed

/-- `processReport` from `runAnalysis` in `frontend/MobileUploadView.tsx`:
round `finalScore`, map every gate through the rounding/rescaling step, and
round the four summary scores when a summary block is present. -/
def processReport (report : AnalysisReport) (isGptApi : Bool) : AnalysisReport :=
  { report with
      finalScore := toOneDecimal report.finalScore
      gates := report.gates.map (processGate isGptApi)
      summary := report.summary.map fun s =>
        { aspectRatioScore := toOneDecimal s.aspectRatioScore
          framingScore := toOneDecimal s.framingScore
          compositionScore := toOneDecimal s.compositionScore
          compressionScore := toOneDecimal s.compressionScore } }

/-- A score has at most one decimal digit: it is an integer number of
tenths. -/
def hasOneDecimal (q : ℚ) : Prop := ∃ n : ℤ, q = (n : ℚ) / 10

/-- Decidable (boolean) form of `hasOneDecimal`, used in executable
canonicity checks: ten times the score has denominator 1. -/
def oneDecB (q : ℚ) : Bool := (q * 10).den == 1

/-! The credential pool and retry wrapper.

`API_KEYS` is built at module load from three optional environment
variables; `getClient` picks the key at the process-wide `currentKeyIndex`
(and never raises on an empty pool); `callGptWithRetry` performs the call
and, on a 429/401/403 failure with `retryCount < API_KEYS.length`, advances
`currentKeyIndex = (currentKeyIndex + 1) % API_KEYS.length` and recurses
with `retryCount + 1`; any other failure, or an exhausted budget, rethrows
the underlying error. -/
/-- `[t1 || "", t2 || "", t3 || ""].filter(key => key && key.length > 0)`:
absent env vars (`none`) become `""` and are filtered out together with any
other empty string. -/
def buildApiKeys (tokens : List (Option String)) : List String :=
  (tokens.map fun t => t.getD "").filter fun k => decide (k ≠ "") && decide (0 < k.length)

/-- The argument object of `new OpenAI({...})` built by `getClient`.
`apiKey = none` models passing JS `undefined`. -/
structure OpenAIClientConfig where
  baseURL : String
  apiKey : Option String
  dangerouslyAllowBrowser : Bool
deriving DecidableEq

/-- `getClient` reads `API_KEYS[currentKeyIndex]` (which is `undefined` out
of range, in particular on an empty pool) and constructs a client from it;
there is no empty-pool check. -/
def getClient (apiKeys : List String) (currentKeyIndex : ℕ) : OpenAIClientConfig :=
  { baseURL := "https://models.inference.ai.azure.com"
    apiKey := apiKeys.get? currentKeyIndex
    dangerouslyAllowBrowser := true }

/-- Outcome of one underlying `client.chat.completions.create` call: either
a response, or a thrown error carrying an HTTP status. -/
inductive ApiOutcome where
  | success (resp : String)
  | failure (status : ℕ)
deriving DecidableEq

/-- Result of `callGptWithRetry`: the returned response or the rethrown
error status. -/
inductive CallResult where
  | ok (resp : String)
  | err (status : ℕ)
deriving DecidableEq

/-- The recoverable-failure classification of `callGptWithRetry`:
`err.status === 429 || err.status === 401 || err.status === 403`. -/
def isRecoverableStatus (status : ℕ) : Bool :=
  status == 429 || status == 401 || status == 403

/-- Recursion core of `callGptWithRetry`.  The JS recursion is guarded by
`retryCount < API_KEYS.length` with `retryCount + 1` passed down, so it is
equivalently structural in `remaining = numKeys - retryCount`; the wrapper
`callGptWithRetry` instantiates `remaining` that way, and the guard
`remaining > 0` is exactly `retryCount < numKeys`.

`respond attempt idx` is the outcome of the underlying network call number
`attempt` (equal to the JS `retryCount` at that moment) made with key index
`idx`.  The value returned is `(result, final currentKeyIndex, number of
call attempts made)`. -/
def callGptAux (respond : ℕ → ℕ → ApiOutcome) (numKeys : ℕ) :
    ℕ → ℕ → ℕ → CallResult × ℕ × ℕ
  | remaining, retryCount, idx =>
    match respond retryCount idx with
    | ApiOutcome.success r => (CallResult.ok r, idx, 1)
    | ApiOutcome.failure status =>
      if isRecoverableStatus status then
        match remaining with
        | 0 => (CallResult.err status, idx, 1)
        | rem + 1 =>
          let tail := callGptAux respond numKeys rem (retryCount + 1) ((idx + 1) % numKeys)
          (tail.1, tail.2.1, tail.2.2 + 1)
      else (CallResult.err status, idx, 1)

/-- `callGptWithRetry(messages, retryCount)` starting from the pool state
`idx = currentKeyIndex`. -/
def callGptWithRetry (respond : ℕ → ℕ → ApiOutcome) (numKeys retryCount idx : ℕ) :
    CallResult × ℕ × ℕ :=
  callGptAux respond numKeys (numKeys - retryCount) retryCount idx

/-- `saveToHistory`: append the item, then `if (newHistory.length > 20)
newHistory.shift()` - drop the oldest (first) entry when over capacity. -/
def saveToHistory (history : List HistoryItem) (item : HistoryItem) : List HistoryItem :=
  let newHistory := history ++ [item]
  if 20 < newHistory.length then newHistory.tail else newHistory

/-- `MOCK_ANALYSIS_RESULT` from `frontend/constants.ts`.  Its `timestamp`
is `new Date().toISOString()` evaluated at module load, passed here as the
parameter `now`. -/
def MOCK_ANALYSIS_RESULT (now : String) : AnalysisReport :=
  { timestamp := now
    processingTime := 11.3
    finalScore := 91
    summary := some
      { aspectRatioScore := 100
        framingScore := 79
        compositionScore := 90
        compressionScore := 95 }
    overallFeedback := "레퍼런스와 비슷하지만 미세 조정이 필요합니다. 주로 카메라 이동 조정이 필요해 보입니다."
    gates :=
      [ { gateId := 0
          title := "종횡비 체크"
          status := GateStatus.passed
          score := 100
          description := "레퍼런스 이미지와 가로세로 비율이 일치하는지 확인합니다."
          details := some (GateDetails.dims
            { width := 736, height := 920, ratio := 0.800, label := "3:4 (세로)" }
            { width := 736, height := 919, ratio := 0.801, label := "3:4 (세로)" })
          feedback := ["종횡비가 완벽하게 일치합니다."] }
      , { gateId := 1
          title := "프레이밍 & 여백"
          status := GateStatus.warning
          score := 74
          description := "샷 타입, 인물 크기, 여백의 균형을 정밀 분석합니다."
          details := some (GateDetails.framing
            { shotType := { current := "미디엄샷", reference := "미디엄샷", score := 95 }
              subjectSize := { current := 18.9, reference := 35.5, score := 73, diff := 16.5 }
              margins :=
                { horizontal :=
                    { currentLeft := 38, currentRight := 18
                      refLeft := 29, refRight := 10
                      status := "Perfect (완벽)", score := 95 }
                  vertical :=
                    { currentTop := 33, currentBottom := 24
                      refTop := 39, refBottom := 3
                      status := "조정 필요", score := 50 }
                  bottomIssue := "하단 여백이 너무 많습니다." } })
          feedback :=
            [ "1순위: 카메라를 피사체 쪽으로 두세 걸음 이동하세요."
            , "2순위: 카메라를 15도 위로 틸트하세요." ] }
      , { gateId := 2
          title := "구도 & 그리드"
          status := GateStatus.passed
          score := 90
          description := "주요 피사체(얼굴 등)의 기하학적 위치를 확인합니다."
          details := some (GateDetails.composition
            { current := { x := 0.52, y := 0.38, grid := some "(2, 2)" }
              reference := { x := 0.47, y := 0.47, grid := some "(2, 2)" }
              score := none })
          feedback := ["구도 구조가 잘 일치합니다."] }
      , { gateId := 3
          title := "압축감 (렌즈)"
          status := GateStatus.passed
          score := 95
          description := "초점 거리와 원근감을 추정하여 분석합니다."
          details := some (GateDetails.compression
            (some { val := 0.49, label := some "표준 렌즈" })
            (some { val := 0.44, label := some "준광각 렌즈" }))
          feedback := ["압축감이 일치합니다."] }
      , { gateId := 4
          title := "포즈 디테일"
          status := GateStatus.passed
          score := 95
          description := "미세한 신체 동작과 자세를 분석합니다."
          details := some (GateDetails.pose 5.6)
          feedback := ["포즈 정렬이 양호합니다."] } ] }

/-- The `overallFeedback` text of the fallback report produced when the
deterministic backend call fails. -/
def fallbackFeedback : String :=
  "⚠️ Python 서버 연결 실패 (Mock 데이터 표시 중). `uvicorn api_server_v3:app --reload` 를 실행해주세요."

/-- The connection-failure marker contained in `fallbackFeedback`. -/
def connectionFailureMarker : String := "서버 연결 실패"

/-- Outcome of the deterministic-backend round trip performed by
`fetchAlgorithmResult`: a parsed 2xx JSON body, a non-2xx HTTP status
(`!response.ok`), or a rejected fetch / body read. -/
inductive BackendOutcome where
  | ok (report : AnalysisReport)
  | httpError (status : ℕ) (statusText : String)
  | connectionError (message : String)
deriving DecidableEq

/-- Whether the outcome takes the `catch` path of `fetchAlgorithmResult`. -/
def isBackendFailure : BackendOutcome → Bool
  | BackendOutcome.ok _ => false
  | BackendOutcome.httpError _ _ => true
  | BackendOutcome.connectionError _ => true

/-- `fetchAlgorithmResult`: on success return the parsed report; on any
failure (non-2xx throws `Algorithm Server Error`, a connection error
rejects the fetch) the `catch` block absorbs the error and returns
`{...MOCK_ANALYSIS_RESULT, overallFeedback: "⚠️ Python 서버 연결 실패 ..."}`. -/
def fetchAlgorithmResult (mockNow : String) (outcome : BackendOutcome) : AnalysisReport :=
  match outcome with
  | BackendOutcome.ok data => data
  | BackendOutcome.httpError _ _ =>
    { MOCK_ANALYSIS_RESULT mockNow with overallFeedback := fallbackFeedback }
  | BackendOutcome.connectionError _ =>
    { MOCK_ANALYSIS_RESULT mockNow with overallFeedback := fallbackFeedback }

/-! Fence stripping.  `runAnalysis` sanitizes the remote evaluator's text
with `jsonText.replace(/```json/g, '').replace(/```/g, '').trim()` before
`JSON.parse`.  `String.prototype.replace` with a `/g` literal pattern and
empty replacement deletes the non-overlapping occurrences of the pattern
scanning left to right; that scan is embedded over `List Char` below. -/
/-- The backtick character (code point 96). -/
def backtickChar : Char := Char.ofNat 96

/-- Left-to-right deletion of non-overlapping occurrences of the pattern
`p`.  Every step consumes at least one character (a match consumes
`p.length ≥ 1` of them, guarded by `!p.isEmpty`), so running with
`fuel = s.length` - as `stripAll` does - never hits the fuel-exhaustion
arm. -/
def stripAllAux (p : List Char) : ℕ → List Char → List Char
  | _, [] => []
  | 0, s => s
  | fuel + 1, c :: rest =>
    if !p.isEmpty && p.isPrefixOf (c :: rest) then
      stripAllAux p fuel (List.drop (p.length - 1) rest)
    else
      c :: stripAllAux p fuel rest

/-- `text.replace(/p/g, '')` for a literal pattern `p`. -/
def stripAll (p s : List Char) : List Char := stripAllAux p s.length s

/-- JS `String.prototype.trim` whitespace test, restricted to the ASCII
whitespace that can occur around a fenced JSON block. -/
def isJsWhitespace (c : Char) : Bool :=
  c == ' ' || c == '\t' || c == '\n' || c == '\r'

/-- JS `String.prototype.trim`: drop leading and trailing whitespace. -/
def trimChars (s : List Char) : List Char :=
  ((s.dropWhile isJsWhitespace).reverse.dropWhile isJsWhitespace).reverse

/-- The fence-with-language-tag pattern removed first. -/
def fenceTag : List Char := "```json".toList

/-- The bare fence pattern removed second. -/
def fenceTicks : List Char := "```".toList

/-- `const cleanJson = jsonText.replace(/```json/g, '').replace(/```/g, '').trim();` -/
def cleanGptJson (s : List Char) : List Char :=
  trimChars (stripAll fenceTicks (stripAll fenceTag s))

/-- Outcome of the remote-evaluator promise
(`callGptWithRetry` resolving with `choices[0]?.message?.content || ""`,
or rejecting with an error). -/
inductive GptOutcome where
  | ok (content : String)
  | err (message : String)
deriving DecidableEq

/-- The component state written by one `runAnalysis` round: the `setError`
/ `setApiResult` / `setAlgoResult` / `setHistory` values after the run. -/
structure SessionState where
  error : Option String
  apiResult : Option AnalysisReport
  algoResult : Option AnalysisReport
  history : List HistoryItem
deriving DecidableEq

/-- `runAnalysis` (the analysis core, after both awaited promises settle).
`parse` is the `JSON.parse` oracle together with the canonical-shape cast;
`gpt` the settled remote promise; `backend` the settled deterministic
call; `sessionId` models `Date.now().toString()` and `sessionTs` the
`new Date().toISOString()` taken at save time.

On a remote rejection or a parse failure the `catch` block sets the error
string and nothing is saved; otherwise both reports are normalized
(`processReport` with `isGptApi = true` for the remote one, `false` for the
deterministic one), published, and appended to history as one entry. -/
def runAnalysis (parse : List Char → Except String AnalysisReport)
    (gpt : GptOutcome) (backend : BackendOutcome) (mockNow : String)
    (refBase64 userBase64 sessionId sessionTs : String)
    (history : List HistoryItem) : SessionState :=
  match gpt with
  | GptOutcome.err m =>
    { error := some ("오류: " ++ m), apiResult := none, algoResult := none
      history := history }
  | GptOutcome.ok content =>
    let algoResponse := fetchAlgorithmResult mockNow backend
    match parse (cleanGptJson content.toList) with
    | Except.error m =>
      { error := some ("오류: " ++ m), apiResult := none, algoResult := none
        history := history }
    | Except.ok raw =>
      let jsonData := processReport raw true
      let cleanAlgo := processReport algoResponse false
      { error := none
        apiResult := some jsonData
        algoResult := some cleanAlgo
        history := saveToHistory history
          { id := sessionId
            timestamp := sessionTs
            refImageBase64 := refBase64
            userImageBase64 := userBase64
            apiResult := jsonData
            algoResult := cleanAlgo } }

/-- Fixture: a raw remote gate-3 result on the 0-100 scale. -/
def gate82 : GateResult :=
  { gateId := 3
    title := ""
    status := GateStatus.passed
    score := 95
    description := ""
    details := some (GateDetails.compression
      (some { val := 82, label := none })
      (some { val := 44, label := none }))
    feedback := [] }

/-- Fixture: a raw remote gate-3 result already on the 0-1 scale. -/
def gate049 : GateResult :=
  { gateId := 3
    title := ""
    status := GateStatus.passed
    score := 95
    description := ""
    details := some (GateDetails.compression
      (some { val := 0.49, label := none })
      (some { val := 0.44, label := none }))
    feedback := [] }

/-- Fixture: reference on the 0-100 scale while current is canonical. -/
def gateRefBig : GateResult :=
  { gateId := 3
    title := ""
    status := GateStatus.passed
    score := 95
    description := ""
    details := some (GateDetails.compression
      (some { val := 0.5, label := none })
      (some { val := 50, label := none }))
    feedback := [] }

/-- Fixture: reference canonical while current is on the 0-100 scale. -/
def gateRefSmall : GateResult :=
  { gateId := 3
    title := ""
    status := GateStatus.passed
    score := 95
    description := ""
    details := some (GateDetails.compression
      (some { val := 82, label := none })
      (some { val := 0.3, label := none }))
    feedback := [] }

/-! Test fixtures (concrete values used to instantiate theorems; they are
inputs, not part of the embedded program). -/
/-- Fixture: a canonical gate-3 result with in-range one-decimal scores. -/
def sampleGate : GateResult :=
  { gateId := 3
    title := "compression"
    status := GateStatus.passed
    score := 95
    description := ""
    details := some (GateDetails.compression
      (some { val := 0.5, label := none })
      (some { val := 0.5, label := none }))
    feedback := [] }

/-- Fixture: a canonical report containing `sampleGate`. -/
def sampleReport : AnalysisReport :=
  { timestamp := ""
    processingTime := 0
    finalScore := 91
    gates := [sampleGate]
    summary := none
    overallFeedback := "" }

/-- Fixture: a report whose `finalScore` is already out of range. -/
def overScaleReport : AnalysisReport :=
  { timestamp := ""
    processingTime := 0
    finalScore := 150
    gates := []
    summary := none
    overallFeedback := "" }

/-! Canonicity: the spec's notion of an already-normalized report - every
score rounded to one decimal and in [0,100], gate-3 compression values in
[0,1]. -/
/-- A canonical score: one decimal digit, in [0,100]. -/
def canonicalScoreB (q : ℚ) : Bool :=
  oneDecB q && decide (0 ≤ q) && decide (q ≤ 100)

/-- A canonical compression side: `val` in [0,1] (absent side is fine). -/
def canonicalSideB : Option CompSide → Bool
  | none => true
  | some c => decide (0 ≤ c.val) && decide (c.val ≤ 1)

/-- Canonical details: compression values in range; other payloads are not
constrained (the normalizer never touches them). -/
def canonicalDetailsB : Option GateDetails → Bool
  | some (GateDetails.compression c r) => canonicalSideB c && canonicalSideB r
  | _ => true

/-- A canonical gate result. -/
def canonicalGateB (g : GateResult) : Bool :=
  canonicalScoreB g.score && canonicalDetailsB g.details

/-- A canonical summary block. -/
def canonicalSummaryB : Option ReportSummary → Bool
  | none => true
  | some s => canonicalScoreB s.aspectRatioScore && canonicalScoreB s.framingScore &&
      canonicalScoreB s.compositionScore && canonicalScoreB s.compressionScore

/-- A canonical report. -/
def canonicalReportB (r : AnalysisReport) : Bool :=
  canonicalScoreB r.finalScore && r.gates.all canonicalGateB &&
    canonicalSummaryB r.summary

/-- Fixture: a raw remote gate-3 with `current.val = 250` (above even the
0-100 scale). -/
def rawGate250 : GateResult :=
  { gateId := 3
    title := ""
    status := GateStatus.passed
    score := 0
    description := ""
    details := some (GateDetails.compression
      (some { val := 250, label := none })
      (some { val := 250, label := none }))
    feedback := [] }

/-- Fixture: a raw remote report containing `rawGate250`. -/
def rawReport250 : AnalysisReport :=
  { timestamp := ""
    processingTime := 0
    finalScore := 0
    gates := [rawGate250]
    summary := none
    overallFeedback := "" }

/-- Fixture: a history entry built from `sampleReport`. -/
def sampleItem : HistoryItem :=
  { id := "1"
    timestamp := ""
    refImageBase64 := ""
    userImageBase64 := ""
    apiResult := sampleReport
    algoResult := sampleReport }

/-- Fixture responder for C5: the first two credentials (indices 0 and 1)
fail with 429, the third (index 2) succeeds. -/
def respondThirdOk : ℕ → ℕ → ApiOutcome := fun _ idx =>
  if idx < 2 then ApiOutcome.failure 429 else ApiOutcome.success ("third")

/-! Theorems. -/

theorem toOneDecimal_hasOneDecimal (q : ℚ) : hasOneDecimal (toOneDecimal q) :=
  ⟨jsRound (q * 10), rfl⟩

theorem toOneDecimal_nonneg (q : ℚ) (h : 0 ≤ q) : 0 ≤ toOneDecimal q := by
  unfold toOneDecimal jsRound
  have h0 : (0 : ℤ) ≤ ⌊q * 10 + 1 / 2⌋ := Int.floor_nonneg.mpr (by linarith)
  have : (0 : ℚ) ≤ (⌊q * 10 + 1 / 2⌋ : ℚ) := by exact_mod_cast h0
  linarith

theorem toOneDecimal_le_hundred (q : ℚ) (h : q ≤ 100) : toOneDecimal q ≤ 100 := by
  unfold toOneDecimal jsRound
  have h1 : ⌊q * 10 + 1 / 2⌋ ≤ ⌊(2001 : ℚ) / 2⌋ := Int.floor_le_floor (by linarith)
  have h2 : ⌊(2001 : ℚ) / 2⌋ = 1000 := by
    rw [Int.floor_eq_iff] ; norm_num
  have : (⌊q * 10 + 1 / 2⌋ : ℚ) ≤ 1000 := by exact_mod_cast h1.trans_eq h2
  linarith

/-- A value that already has at most one decimal digit is a fixed point of
the rounding step. -/
theorem toOneDecimal_fixed (q : ℚ) (h : oneDecB q = true) : toOneDecimal q = q := by
  have hden : (q * 10).den = 1 := by simpa [oneDecB] using h
  have hnum : ((q * 10).num : ℚ) = q * 10 := Rat.coe_int_num_of_den_eq_one hden
  unfold toOneDecimal jsRound
  rw [← hnum, Int.floor_int_add, show ⌊(1 : ℚ) / 2⌋ = 0 by norm_num]
  rw [add_zero, hnum]
  ring

theorem oneDecB_of_hasOneDecimal (q : ℚ) (h : hasOneDecimal q) : oneDecB q = true := by
  obtain ⟨n, rfl⟩ := h
  have : (n : ℚ) / 10 * 10 = (n : ℚ) := by ring
  simp [oneDecB, this]

theorem toOneDecimal_idem (q : ℚ) : toOneDecimal (toOneDecimal q) = toOneDecimal q :=
  toOneDecimal_fixed _ (oneDecB_of_hasOneDecimal _ (toOneDecimal_hasOneDecimal q))

/-! Helper lemmas about the normalizer. -/
theorem processGate_score (b : Bool) (g : GateResult) :
    (processGate b g).score = toOneDecimal g.score := by
  unfold processGate
  dsimp only
  split
  · split
    · split
      · rfl
      · rfl
    · rfl
  · rfl

theorem processGate_gateId (b : Bool) (g : GateResult) :
    (processGate b g).gateId = g.gateId := by
  unfold processGate
  dsimp only
  split
  · split
    · split
      · rfl
      · rfl
    · rfl
  · rfl

theorem processGate_false (g : GateResult) :
    processGate false g = { g with score := toOneDecimal g.score } := by
  unfold processGate
  simp

theorem processReport_gates (r : AnalysisReport) (b : Bool) :
    (processReport r b).gates = r.gates.map (processGate b) := rfl

theorem processReport_finalScore (r : AnalysisReport) (b : Bool) :
    (processReport r b).finalScore = toOneDecimal r.finalScore := rfl

theorem processReport_overallFeedback (r : AnalysisReport) (b : Bool) :
    (processReport r b).overallFeedback = r.overallFeedback := rfl

/-- Shared unfolding lemma for the remote-path gate-3 branch of
`processGate`: with `gateId = 3` and a compression payload whose `current`
side is present, the gate is rescaled exactly when `current.val > 1`. -/
theorem processGate_gate3_cases (g : GateResult) (c : CompSide) (ref : Option CompSide)
    (hid : g.gateId = 3)
    (hd : g.details = some (GateDetails.compression (some c) ref)) :
    (1 < c.val → processGate true g =
      { g with
          score := toOneDecimal g.score
          details := some (GateDetails.compression
            (some { c with val := c.val / 100 })
            (some { val := (ref.map CompSide.val).getD 0 / 100
                    label := ref.bind CompSide.label })) }) ∧
    (c.val ≤ 1 → processGate true g = { g with score := toOneDecimal g.score }) := by
  obtain ⟨gid, title, status, score, descr, details, fb⟩ := g
  simp only at hid hd
  subst hid
  subst hd
  constructor
  · intro hlt
    unfold processGate
    simp only [Bool.true_and, beq_self_eq_true, if_true]
    rw [if_pos hlt]
  · intro hle
    unfold processGate
    simp only [Bool.true_and, beq_self_eq_true, if_true]
    rw [if_neg (not_lt.mpr hle)]

/-- C3: rescale-on-remote-path-only.  Normalization maps every gate through
the per-gate step; on the remote path (`isGptApi = true`) a gate-3
compression `current.val > 1` is divided by 100 while a `current.val ≤ 1`
leaves the details untouched; on the deterministic path
(`isGptApi = false`) the details of every gate are always untouched. -/
theorem processReport_gate3_rescale :
    (∀ (r : AnalysisReport) (b : Bool),
      (processReport r b).gates = r.gates.map (processGate b)) ∧
    (∀ (g : GateResult) (c : CompSide) (ref : Option CompSide),
      g.gateId = 3 → g.details = some (GateDetails.compression (some c) ref) →
      ((1 < c.val → (processGate true g).details =
          some (GateDetails.compression
            (some { c with val := c.val / 100 })
            (some { val := (ref.map CompSide.val).getD 0 / 100
                    label := ref.bind CompSide.label }))) ∧
        (c.val ≤ 1 → (processGate true g).details = g.details))) ∧
    (∀ g : GateResult, (processGate false g).details = g.details) := by
  refine ⟨fun r b => rfl, ?_, fun g => by rw [processGate_false]⟩
  intro g c ref hid hd
  obtain ⟨h1, h2⟩ := processGate_gate3_cases g c ref hid hd
  constructor
  · intro hlt
    rw [h1 hlt]
  · intro hle
    rw [h2 hle, hd]

/-- Witness for C3: raw `val = 82` becomes `0.82`; raw `val = 0.49` is left
unchanged. -/
theorem processReport_gate3_rescale_witness :
    gate82.gateId = 3 ∧ (1 : ℚ) < 82 ∧
    (processGate true gate82).details = some (GateDetails.compression
      (some { val := (82 : ℚ) / 100, label := none })
      (some { val := (44 : ℚ) / 100, label := none })) ∧
    (82 : ℚ) / 100 = 0.82 ∧
    gate049.gateId = 3 ∧ ((0.49 : ℚ)) ≤ 1 ∧
    (processGate true gate049).details = gate049.details :=
  ⟨rfl, by norm_num,
    (processReport_gate3_rescale.2.1 gate82 { val := 82, label := none }
      (some { val := 44, label := none }) rfl rfl).1 (by norm_num),
    by norm_num,
    rfl, by norm_num,
    (processReport_gate3_rescale.2.1 gate049 { val := 0.49, label := none }
      (some { val := 0.44, label := none }) rfl rfl).2 (by norm_num)⟩

/-- C10: in the remote-path gate-3 rescale, the decision is keyed solely on
`current.val`: when `current.val > 1` the `reference.val` is divided by 100
whatever its own magnitude, and when `current.val ≤ 1` the details
(including an out-of-scale `reference.val`) are left untouched. -/
theorem processGate_reference_keyed_on_current
    (g : GateResult) (c rr : CompSide)
    (hid : g.gateId = 3)
    (hd : g.details = some (GateDetails.compression (some c) (some rr))) :
    (1 < c.val →
      (processGate true g).details = some (GateDetails.compression
        (some { c with val := c.val / 100 })
        (some { val := rr.val / 100, label := rr.label }))) ∧
    (c.val ≤ 1 → (processGate true g).details = g.details) := by
  obtain ⟨h1, h2⟩ := processGate_gate3_cases g c (some rr) hid hd
  constructor
  · intro hlt
    rw [h1 hlt]
    simp
  · intro hle
    rw [h2 hle, hd]

/-- Witness for C10: a 0-100 `reference.val = 50` paired with
`current.val = 0.5` stays 50, and a canonical `reference.val = 0.3` paired
with `current.val = 82` is divided down to 0.003. -/
theorem processGate_reference_keyed_on_current_witness :
    ((0.5 : ℚ) ≤ 1 ∧ (processGate true gateRefBig).details = gateRefBig.details) ∧
    ((1 : ℚ) < 82 ∧
      (processGate true gateRefSmall).details = some (GateDetails.compression
        (some { val := (82 : ℚ) / 100, label := none })
        (some { val := (0.3 : ℚ) / 100, label := none }))) :=
  ⟨⟨by norm_num,
      (processGate_reference_keyed_on_current gateRefBig
        { val := 0.5, label := none } { val := 50, label := none } rfl rfl).2
        (by norm_num)⟩,
    ⟨by norm_num,
      (processGate_reference_keyed_on_current gateRefSmall
        { val := 82, label := none } { val := 0.3, label := none } rfl rfl).1
        (by norm_num)⟩⟩

/-- C1 counterexample: `processReport` performs no clamping - a
`finalScore` of 150 passes through normalization unchanged, so the
normalized report does not lie in [0,100]. -/
theorem processReport_no_clamp_counterexample :
    (processReport overScaleReport false).finalScore = 150 ∧
    ¬ (processReport overScaleReport false).finalScore ≤ 100 := by
  have h : (processReport overScaleReport false).finalScore = 150 := by
    rw [processReport_finalScore]
    exact toOneDecimal_fixed 150 (by norm_num [oneDecB, Rat.den_ofNat])
  refine ⟨h, ?_⟩
  rw [h]
  norm_num

/-- C1 (amended): normalization rounds unconditionally, but never clamps.
Every score field of any report returned by `processReport` (final score,
every per-gate score, the four summary scores) has at most one decimal
digit, with no hypothesis on the input; and each individual output score
lies in [0,100] provided its own corresponding input score already does. -/
theorem processReport_rounds_and_keeps_range (r : AnalysisReport) (b : Bool) :
    (hasOneDecimal (processReport r b).finalScore ∧
      (∀ g ∈ (processReport r b).gates, hasOneDecimal g.score) ∧
      (∀ s, (processReport r b).summary = some s →
        hasOneDecimal s.aspectRatioScore ∧ hasOneDecimal s.framingScore ∧
        hasOneDecimal s.compositionScore ∧ hasOneDecimal s.compressionScore)) ∧
    ((0 ≤ r.finalScore → r.finalScore ≤ 100 →
        0 ≤ (processReport r b).finalScore ∧ (processReport r b).finalScore ≤ 100) ∧
      (processReport r b).gates = r.gates.map (processGate b) ∧
      (∀ g ∈ r.gates, 0 ≤ g.score → g.score ≤ 100 →
        0 ≤ (processGate b g).score ∧ (processGate b g).score ≤ 100) ∧
      (∀ s s2, r.summary = some s → (processReport r b).summary = some s2 →
        (0 ≤ s.aspectRatioScore → s.aspectRatioScore ≤ 100 →
          0 ≤ s2.aspectRatioScore ∧ s2.aspectRatioScore ≤ 100) ∧
        (0 ≤ s.framingScore → s.framingScore ≤ 100 →
          0 ≤ s2.framingScore ∧ s2.framingScore ≤ 100) ∧
        (0 ≤ s.compositionScore → s.compositionScore ≤ 100 →
          0 ≤ s2.compositionScore ∧ s2.compositionScore ≤ 100) ∧
        (0 ≤ s.compressionScore → s.compressionScore ≤ 100 →
          0 ≤ s2.compressionScore ∧ s2.compressionScore ≤ 100))) := by
  constructor
  · refine ⟨?_, ?_, ?_⟩
    · rw [processReport_finalScore]
      exact toOneDecimal_hasOneDecimal _
    · intro g hmem
      rw [processReport_gates] at hmem
      obtain ⟨g0, _, rfl⟩ := List.mem_map.mp hmem
      rw [processGate_score]
      exact toOneDecimal_hasOneDecimal _
    · intro s hsum
      have hmap : (processReport r b).summary = r.summary.map fun s =>
          { aspectRatioScore := toOneDecimal s.aspectRatioScore
            framingScore := toOneDecimal s.framingScore
            compositionScore := toOneDecimal s.compositionScore
            compressionScore := toOneDecimal s.compressionScore } := rfl
      rw [hmap] at hsum
      obtain ⟨s0, _, rfl⟩ := Option.map_eq_some.mp hsum
      exact ⟨toOneDecimal_hasOneDecimal _, toOneDecimal_hasOneDecimal _,
        toOneDecimal_hasOneDecimal _, toOneDecimal_hasOneDecimal _⟩
  · refine ⟨?_, rfl, ?_, ?_⟩
    · intro h0 h1
      rw [processReport_finalScore]
      exact ⟨toOneDecimal_nonneg _ h0, toOneDecimal_le_hundred _ h1⟩
    · intro g _ h0 h1
      rw [processGate_score]
      exact ⟨toOneDecimal_nonneg _ h0, toOneDecimal_le_hundred _ h1⟩
    · intro s s2 hs hs2
      have hmap : (processReport r b).summary = r.summary.map fun s =>
          { aspectRatioScore := toOneDecimal s.aspectRatioScore
            framingScore := toOneDecimal s.framingScore
            compositionScore := toOneDecimal s.compositionScore
            compressionScore := toOneDecimal s.compressionScore } := rfl
      rw [hmap, hs] at hs2
      simp only [Option.map_some'] at hs2
      obtain rfl := Option.some.inj hs2
      refine ⟨?_, ?_, ?_, ?_⟩
      · intro h0 h1
        exact ⟨toOneDecimal_nonneg _ h0, toOneDecimal_le_hundred _ h1⟩
      · intro h0 h1
        exact ⟨toOneDecimal_nonneg _ h0, toOneDecimal_le_hundred _ h1⟩
      · intro h0 h1
        exact ⟨toOneDecimal_nonneg _ h0, toOneDecimal_le_hundred _ h1⟩
      · intro h0 h1
        exact ⟨toOneDecimal_nonneg _ h0, toOneDecimal_le_hundred _ h1⟩

/-- Witness for the amended C1 theorem: the unconditional rounding clause
exercised at the out-of-range `overScaleReport`, the per-score range
preservation at the in-range `sampleReport`. -/
theorem processReport_rounds_and_keeps_range_witness :
    hasOneDecimal (processReport overScaleReport false).finalScore ∧
    ((0 : ℚ) ≤ sampleReport.finalScore ∧ sampleReport.finalScore ≤ 100) ∧
    (0 ≤ (processReport sampleReport true).finalScore ∧
      (processReport sampleReport true).finalScore ≤ 100) ∧
    (∀ g ∈ (processReport sampleReport true).gates, hasOneDecimal g.score) ∧
    (sampleGate ∈ sampleReport.gates ∧
      (0 : ℚ) ≤ sampleGate.score ∧ sampleGate.score ≤ 100 ∧
      0 ≤ (processGate true sampleGate).score ∧
      (processGate true sampleGate).score ≤ 100) :=
  ⟨(processReport_rounds_and_keeps_range overScaleReport false).1.1,
    ⟨by decide, by decide⟩,
    (processReport_rounds_and_keeps_range sampleReport true).2.1
      (by decide) (by decide),
    (processReport_rounds_and_keeps_range sampleReport true).1.2.1,
    ⟨by simp [sampleReport], by decide, by decide,
      (processReport_rounds_and_keeps_range sampleReport true).2.2.2.1 sampleGate
        (by simp [sampleReport]) (by decide) (by decide)⟩⟩

/-- A canonical gate is a fixed point of the per-gate normalization step. -/
theorem processGate_canonical_fixed (b : Bool) (g : GateResult)
    (h : canonicalGateB g = true) : processGate b g = g := by
  obtain ⟨gid, title, status, score, descr, details, fb⟩ := g
  simp only [canonicalGateB, canonicalScoreB, Bool.and_eq_true,
    decide_eq_true_eq] at h
  obtain ⟨⟨⟨hdec, _⟩, _⟩, hdet⟩ := h
  have hfix : toOneDecimal score = score := toOneDecimal_fixed _ hdec
  unfold processGate
  dsimp only
  rw [hfix]
  split
  · match details, hdet with
    | none, _ => rfl
    | some (GateDetails.dims c r), _ => rfl
    | some (GateDetails.framing p), _ => rfl
    | some (GateDetails.composition fp), _ => rfl
    | some (GateDetails.pose t), _ => rfl
    | some (GateDetails.compression none r), _ => rfl
    | some (GateDetails.compression (some c) r), hdet => ?_
    simp only [canonicalDetailsB, canonicalSideB, Bool.and_eq_true,
      decide_eq_true_eq] at hdet
    dsimp only
    rw [if_neg (not_lt.mpr hdet.1.2)]
  · rfl

/-- A list whose elements are all fixed by `f` is fixed by `List.map f`. -/
theorem map_fixed {α : Type} (f : α → α) :
    ∀ l : List α, (∀ a ∈ l, f a = a) → l.map f = l := by
  intro l
  induction l with
  | nil => intro _; rfl
  | cons a t ih =>
    intro h
    have ha : f a = a := h a (by simp)
    have ht : t.map f = t := ih fun x hx => h x (by simp [hx])
    simp [ha, ht]

/-- A canonical report is a fixed point of `processReport` (helper shared
by the C4 theorem and its witness). -/
theorem processReport_canonical_fixed (r : AnalysisReport) (b : Bool)
    (h : canonicalReportB r = true) : processReport r b = r := by
  obtain ⟨ts, pt, fs, gates, summary, fb⟩ := r
  simp only [canonicalReportB, Bool.and_eq_true, List.all_eq_true] at h
  obtain ⟨⟨hfs, hgates⟩, hsum⟩ := h
  have hffix : toOneDecimal fs = fs := by
    simp only [canonicalScoreB, Bool.and_eq_true] at hfs
    exact toOneDecimal_fixed _ hfs.1.1
  unfold processReport
  dsimp only
  rw [hffix]
  rw [map_fixed _ gates fun g hg => processGate_canonical_fixed b g (hgates g hg)]
  match summary, hsum with
  | none, _ => rfl
  | some s, hsum => ?_
  simp only [canonicalSummaryB, canonicalScoreB, Bool.and_eq_true,
    decide_eq_true_eq] at hsum
  simp only [Option.map_some']
  rw [toOneDecimal_fixed _ hsum.1.1.1.1.1, toOneDecimal_fixed _ hsum.1.1.2.1.1,
    toOneDecimal_fixed _ hsum.1.2.1.1, toOneDecimal_fixed _ hsum.2.1.1]

/-- The deterministic-path per-gate step is idempotent. -/
theorem processGate_false_idem (g : GateResult) :
    processGate false (processGate false g) = processGate false g := by
  rw [processGate_false, processGate_false]
  dsimp only
  rw [toOneDecimal_idem]

/-- C4 (amended): normalizing an already-canonical report is the identity,
and the deterministic-path normalization (`isGptApi = false`) is idempotent
on every report.  (The remote-path normalization is not idempotent in
general - see the counterexample - because a gate-3 `current.val` above 100
is still above 1 after one rescale and is rescaled again.) -/
theorem processReport_idempotent_amended :
    (∀ (r : AnalysisReport) (b : Bool), canonicalReportB r = true →
      processReport r b = r) ∧
    (∀ r : AnalysisReport,
      processReport (processReport r false) false = processReport r false) := by
  refine ⟨processReport_canonical_fixed, ?_⟩
  intro r
  obtain ⟨ts, pt, fs, gates, summary, fb⟩ := r
  unfold processReport
  dsimp only
  rw [toOneDecimal_idem, List.map_map,
    show (processGate false) ∘ (processGate false) = fun g =>
        processGate false (processGate false g) from rfl]
  simp only [processGate_false_idem]
  match summary with
  | none => rfl
  | some s =>
    simp only [Option.map_some']
    rw [toOneDecimal_idem, toOneDecimal_idem, toOneDecimal_idem, toOneDecimal_idem]

/-- C4 counterexample: applying `processReport` twice is not the same as
applying it once - on the remote path a gate-3 `current.val = 250` becomes
2.5 after one application and 0.025 after two. -/
theorem processReport_not_idempotent_counterexample :
    processReport (processReport rawReport250 true) true ≠
      processReport rawReport250 true := by
  have hd1 : (processGate true rawGate250).details =
      some (GateDetails.compression
        (some { val := (250 : ℚ) / 100, label := none })
        (some { val := (250 : ℚ) / 100, label := none })) := by
    have h := (processGate_gate3_cases rawGate250 { val := 250, label := none }
      (some { val := 250, label := none }) rfl rfl).1 (by norm_num)
    rw [h]
    simp
  have hid1 : (processGate true rawGate250).gateId = 3 := by
    rw [processGate_gateId]
    rfl
  have hd2 : (processGate true (processGate true rawGate250)).details =
      some (GateDetails.compression
        (some { val := (250 : ℚ) / 100 / 100, label := none })
        (some { val := (250 : ℚ) / 100 / 100, label := none })) := by
    have h := (processGate_gate3_cases (processGate true rawGate250)
      { val := (250 : ℚ) / 100, label := none }
      (some { val := (250 : ℚ) / 100, label := none }) hid1 hd1).1 (by norm_num)
    rw [h]
    simp
  intro heq
  have hg := congrArg (fun r => r.gates) heq
  simp only [processReport_gates, rawReport250, List.map_cons, List.map_nil,
    List.map_map] at hg
  have hone : processGate true (processGate true rawGate250) =
      processGate true rawGate250 := by
    have h := congrArg (fun l => l.head?) hg
    simpa using h
  have hdet := congrArg GateResult.details hone
  rw [hd1, hd2] at hdet
  simp only [Option.some.injEq, GateDetails.compression.injEq,
    CompSide.mk.injEq] at hdet
  have hval : (250 : ℚ) / 100 / 100 = (250 : ℚ) / 100 := hdet.1.1
  norm_num at hval

/-- Witness for the amended C4 theorem: `sampleReport` is canonical and is
fixed by both paths of `processReport`. -/
theorem processReport_idempotent_amended_witness :
    canonicalReportB sampleReport = true ∧
    processReport sampleReport true = sampleReport ∧
    processReport (processReport sampleReport false) false =
      processReport sampleReport false := by
  have hcanon : canonicalReportB sampleReport = true := by
    norm_num [canonicalReportB, canonicalScoreB, canonicalGateB, canonicalDetailsB,
      canonicalSideB, canonicalSummaryB, oneDecB, sampleReport, sampleGate,
      Rat.den_ofNat]
  exact ⟨hcanon, processReport_idempotent_amended.1 sampleReport true hcanon,
    processReport_idempotent_amended.2 sampleReport⟩

/-- C6: FIFO eviction at capacity 20.  Appending to a full 20-entry history
drops exactly the oldest entry, keeps the surviving entries in order, and
puts the new entry last; appending to a shorter history removes nothing. -/
theorem saveToHistory_eviction (h : List HistoryItem) (item : HistoryItem) :
    (h.length = 20 →
      saveToHistory h item = h.tail ++ [item] ∧
      (saveToHistory h item).length = 20 ∧
      (saveToHistory h item).getLast? = some item) ∧
    (h.length < 20 → saveToHistory h item = h ++ [item]) := by
  constructor
  · intro hlen
    obtain ⟨a, t, rfl⟩ : ∃ a t, h = a :: t := by
      cases h with
      | nil => simp at hlen
      | cons a t => exact ⟨a, t, rfl⟩
    have hlen' : t.length = 19 := by simpa using hlen
    have hbig : 20 < ((a :: t) ++ [item]).length := by
      simp [hlen']
    have heq : saveToHistory (a :: t) item = t ++ [item] := by
      unfold saveToHistory
      rw [if_pos hbig]
      rfl
    refine ⟨heq, ?_, ?_⟩
    · rw [heq]
      simp [hlen']
    · rw [heq]
      simp
  · intro hlen
    unfold saveToHistory
    rw [if_neg (by simp; omega)]

/-- Witness for C6 at a concrete full history and at the empty history. -/
theorem saveToHistory_eviction_witness :
    (List.replicate 20 sampleItem).length = 20 ∧
    (saveToHistory (List.replicate 20 sampleItem) sampleItem =
        (List.replicate 20 sampleItem).tail ++ [sampleItem] ∧
      (saveToHistory (List.replicate 20 sampleItem) sampleItem).length = 20 ∧
      (saveToHistory (List.replicate 20 sampleItem) sampleItem).getLast? =
        some sampleItem) ∧
    ([] : List HistoryItem).length < 20 ∧
    saveToHistory [] sampleItem = [] ++ [sampleItem] :=
  ⟨by simp,
    (saveToHistory_eviction (List.replicate 20 sampleItem) sampleItem).1 (by simp),
    by simp,
    (saveToHistory_eviction [] sampleItem).2 (by simp)⟩

/-! The retry-wrapper claims. -/
/-- Every attempt fails with a recoverable status: the run returns the last
underlying error after exactly `remaining + 1` attempts. -/
theorem callGptAux_all_fail (respond : ℕ → ℕ → ApiOutcome) (numKeys : ℕ)
    (hfail : ∀ n i, ∃ s, respond n i = ApiOutcome.failure s ∧
      isRecoverableStatus s = true) :
    ∀ remaining retryCount idx, ∃ s idx2,
      callGptAux respond numKeys remaining retryCount idx =
        (CallResult.err s, idx2, remaining + 1) ∧
      isRecoverableStatus s = true := by
  intro remaining
  induction remaining with
  | zero =>
    intro retryCount idx
    obtain ⟨s, hs, hrec⟩ := hfail retryCount idx
    refine ⟨s, idx, ?_, hrec⟩
    unfold callGptAux
    rw [hs]
    dsimp only
    rw [if_pos hrec]
  | succ rem ih =>
    intro retryCount idx
    obtain ⟨s, hs, hrec⟩ := hfail retryCount idx
    obtain ⟨s2, idx2, htail, hrec2⟩ := ih (retryCount + 1) ((idx + 1) % numKeys)
    refine ⟨s2, idx2, ?_, hrec2⟩
    unfold callGptAux
    rw [hs]
    dsimp only
    rw [if_pos hrec]
    simp only [htail]

/-- C2 (amended): with a pool of exactly 2 credentials and every attempt
failing with a recoverable status (429, 401 or 403), `callGptWithRetry`
rethrows the last underlying error only after exactly 3 call attempts - the
initial attempt plus one retry per `retryCount < API_KEYS.length` check -
not after 2. -/
theorem callGptWithRetry_pool2_exhaustion (respond : ℕ → ℕ → ApiOutcome)
    (idx : ℕ)
    (hfail : ∀ n i, ∃ s, respond n i = ApiOutcome.failure s ∧
      isRecoverableStatus s = true) :
    ∃ s idx2, callGptWithRetry respond 2 0 idx = (CallResult.err s, idx2, 3) ∧
      isRecoverableStatus s = true := by
  obtain ⟨s, idx2, heq, hrec⟩ := callGptAux_all_fail respond 2 hfail 2 0 idx
  exact ⟨s, idx2, heq, hrec⟩

/-- Witness for the amended C2 theorem: all attempts fail with 429. -/
theorem callGptWithRetry_pool2_exhaustion_witness :
    (∀ n i : ℕ, ∃ s, (fun _ _ => ApiOutcome.failure 429) n i =
        ApiOutcome.failure s ∧ isRecoverableStatus s = true) ∧
    (∃ s idx2, callGptWithRetry (fun _ _ => ApiOutcome.failure 429) 2 0 0 =
        (CallResult.err s, idx2, 3) ∧ isRecoverableStatus s = true) :=
  ⟨fun _ _ => ⟨429, rfl, rfl⟩,
    callGptWithRetry_pool2_exhaustion (fun _ _ => ApiOutcome.failure 429) 0
      fun _ _ => ⟨429, rfl, rfl⟩⟩

/-- C2 counterexample: with a pool of 2 always-recoverably-failing
credentials the wrapper makes 3 call attempts, not 2 - the claimed "retry
budget equals the pool size, no 3rd call" behaviour is false. -/
theorem callGptWithRetry_attempts_counterexample :
    callGptWithRetry (fun _ _ => ApiOutcome.failure 429) 2 0 0 =
      (CallResult.err 429, 0, 3) ∧
    (callGptWithRetry (fun _ _ => ApiOutcome.failure 429) 2 0 0).2.2 ≠ 2 :=
  ⟨rfl, by decide⟩

/-- C5: credential rotation.  Concretely, with a pool of 3 starting at
index 0 where the first two credentials fail recoverably and the third
succeeds, the wrapper returns the third credential's response after 3
attempts and leaves `currentKeyIndex = 2`.  Generally, every recoverable
failure within budget advances the index to `(idx + 1) % numKeys` and
recurses. -/
theorem callGptWithRetry_rotation :
    callGptWithRetry respondThirdOk 3 0 0 = (CallResult.ok ("third"), 2, 3) ∧
    (∀ (respond : ℕ → ℕ → ApiOutcome) (numKeys retryCount idx s : ℕ),
      respond retryCount idx = ApiOutcome.failure s →
      isRecoverableStatus s = true →
      retryCount < numKeys →
      callGptWithRetry respond numKeys retryCount idx =
        (let tail := callGptWithRetry respond numKeys (retryCount + 1) ((idx + 1) % numKeys)
         (tail.1, tail.2.1, tail.2.2 + 1))) := by
  constructor
  · rfl
  · intro respond numKeys retryCount idx s hs hrec hlt
    have hrem : numKeys - retryCount = (numKeys - (retryCount + 1)) + 1 := by omega
    show callGptAux respond numKeys (numKeys - retryCount) retryCount idx = _
    rw [hrem]
    conv_lhs => rw [callGptAux]
    rw [hs]
    dsimp only
    rw [if_pos hrec]
    rfl

/-- Witness for C5's general rotation step, instantiated at the first
attempt of the concrete 3-credential scenario. -/
theorem callGptWithRetry_rotation_witness :
    respondThirdOk 0 0 = ApiOutcome.failure 429 ∧
    isRecoverableStatus 429 = true ∧
    0 < 3 ∧
    callGptWithRetry respondThirdOk 3 0 0 =
      (let tail := callGptWithRetry respondThirdOk 3 1 ((0 + 1) % 3)
       (tail.1, tail.2.1, tail.2.2 + 1)) :=
  ⟨rfl, rfl, by decide,
    callGptWithRetry_rotation.2 respondThirdOk 3 0 0 429 rfl rfl (by decide)⟩

/-- C8 counterexample: constructing the pool from three absent env tokens
yields the empty pool with no error, `getClient` still constructs a client
(with an `undefined` key) instead of failing, and a call with the empty
pool proceeds and surfaces only the underlying request failure after its
single attempt. -/
theorem getClient_empty_pool_counterexample :
    buildApiKeys [none, none, none] = [] ∧
    getClient [] 0 =
      { baseURL := "https://models.inference.ai.azure.com"
        apiKey := none
        dangerouslyAllowBrowser := true } ∧
    callGptWithRetry (fun _ _ => ApiOutcome.failure 500) 0 0 0 =
      (CallResult.err 500, 0, 1) :=
  ⟨rfl, rfl, rfl⟩

/-- C8 (amended): with zero usable credentials no empty-pool error exists -
`getClient` returns a client whose `apiKey` is absent, and
`callGptWithRetry` simply relays the single underlying attempt's outcome
(no retries, since `retryCount < 0` never holds). -/
theorem getClient_empty_pool_behaviour :
    (∀ idx : ℕ, (getClient [] idx).apiKey = none) ∧
    (∀ (respond : ℕ → ℕ → ApiOutcome) (idx : ℕ),
      callGptWithRetry respond 0 0 idx =
        (match respond 0 idx with
         | ApiOutcome.success r => (CallResult.ok r, idx, 1)
         | ApiOutcome.failure s => (CallResult.err s, idx, 1))) := by
  constructor
  · intro idx
    simp [getClient]
  · intro respond idx
    unfold callGptWithRetry callGptAux
    match respond 0 idx with
    | ApiOutcome.success r => rfl
    | ApiOutcome.failure s =>
      by_cases hrec : isRecoverableStatus s = true
      · dsimp only
        rw [if_pos hrec]
      · dsimp only
        rw [if_neg hrec]

/-! Fence-stripping lemmas for C9. -/
/-- A list is a `isPrefixOf`-prefix of itself followed by anything. -/
theorem isPrefixOf_append_self : ∀ (l t : List Char), l.isPrefixOf (l ++ t) = true := by
  intro l
  induction l with
  | nil => intro t; simp [List.isPrefixOf]
  | cons a as ih => intro t; simp [List.isPrefixOf, ih]

/-- Scanning a segment that contains no backtick (while the pattern starts
with one) copies the segment verbatim and continues with the remaining
fuel. -/
theorem stripAllAux_walk (p : List Char) (hp : p.head? = some backtickChar)
    (body : List Char) (hb : ∀ c ∈ body, c ≠ backtickChar) :
    ∀ (m : ℕ) (t : List Char),
      stripAllAux p (body.length + m) (body ++ t) = body ++ stripAllAux p m t := by
  induction body with
  | nil => intro m t; simp
  | cons c bd ih =>
    intro m t
    have hc : c ≠ backtickChar := hb c (by simp)
    have hb2 : ∀ x ∈ bd, x ≠ backtickChar := fun x hx => hb x (by simp [hx])
    obtain ⟨p0, pt, rfl⟩ : ∃ p0 pt, p = p0 :: pt := by
      cases p with
      | nil => simp at hp
      | cons a b => exact ⟨a, b, rfl⟩
    have hp0 : p0 = backtickChar := by simpa using hp
    have hlen : (c :: bd).length + m = (bd.length + m) + 1 := by
      simp
      omega
    rw [hlen]
    show stripAllAux (p0 :: pt) ((bd.length + m) + 1) (c :: (bd ++ t)) = _
    conv_lhs => unfold stripAllAux
    have hpre : (p0 :: pt).isPrefixOf (c :: (bd ++ t)) = false := by
      have hne : (p0 == c) = false := by
        subst hp0
        exact beq_eq_false_iff_ne.mpr fun h => hc h.symm
      simp [List.isPrefixOf, hne]
    rw [hpre]
    simp only [Bool.and_false, Bool.false_eq_true, if_false]
    rw [ih hb2 m t]
    rfl

/-- Scanning a text that begins with the pattern deletes that occurrence
and continues after it. -/
theorem stripAllAux_cons_match (p s : List Char) (m : ℕ) (hp : p ≠ []) :
    stripAllAux p (m + 1) (p ++ s) = stripAllAux p m s := by
  obtain ⟨a, pt, rfl⟩ : ∃ a pt, p = a :: pt := by
    cases p with
    | nil => exact absurd rfl hp
    | cons a b => exact ⟨a, b, rfl⟩
  show stripAllAux (a :: pt) (m + 1) (a :: (pt ++ s)) = _
  conv_lhs => unfold stripAllAux
  have hpre : (a :: pt).isPrefixOf (a :: (pt ++ s)) = true := isPrefixOf_append_self _ _
  rw [hpre]
  simp only [List.isEmpty_cons, Bool.not_false, Bool.true_and, if_true]
  have hdrop : List.drop ((a :: pt).length - 1) (pt ++ s) = s := by
    simp
  rw [hdrop]

/-- A backtick-free text is left unchanged by the deletion pass. -/
theorem stripAll_no_backtick (p : List Char) (hp : p.head? = some backtickChar)
    (body : List Char) (hb : ∀ c ∈ body, c ≠ backtickChar) :
    stripAll p body = body := by
  have hw := stripAllAux_walk p hp body hb 0 []
  simpa [stripAll, stripAllAux] using hw

/-- First sanitization step on a fenced payload: the leading ```json fence
is deleted and the backtick-free body is copied. -/
theorem stripAll_fenced_tag (body : List Char) (hb : ∀ c ∈ body, c ≠ backtickChar) :
    stripAll fenceTag (fenceTag ++ (body ++ fenceTicks)) = body ++ fenceTicks := by
  show stripAllAux fenceTag (fenceTag ++ (body ++ fenceTicks)).length
    (fenceTag ++ (body ++ fenceTicks)) = _
  have hlen : (fenceTag ++ (body ++ fenceTicks)).length = (body.length + 9) + 1 := by
    simp only [List.length_append, show fenceTag.length = 7 from rfl,
      show fenceTicks.length = 3 from rfl]
    omega
  rw [hlen, stripAllAux_cons_match fenceTag (body ++ fenceTicks) (body.length + 9)
    (by decide), stripAllAux_walk fenceTag (by decide) body hb 9 fenceTicks,
    show stripAllAux fenceTag 9 fenceTicks = fenceTicks by decide]

/-- Second sanitization step: the trailing bare fence is deleted. -/
theorem stripAll_fenced_ticks (body : List Char) (hb : ∀ c ∈ body, c ≠ backtickChar) :
    stripAll fenceTicks (body ++ fenceTicks) = body := by
  show stripAllAux fenceTicks (body ++ fenceTicks).length (body ++ fenceTicks) = _
  have hlen : (body ++ fenceTicks).length = body.length + 3 := by
    simp only [List.length_append, show fenceTicks.length = 3 from rfl]
  rw [hlen, stripAllAux_walk fenceTicks (by decide) body hb 3 fenceTicks,
    show stripAllAux fenceTicks 3 fenceTicks = [] by decide, List.append_nil]

/-- Helper shared by the C9 theorem and witness: sanitizing a fenced
backtick-free payload yields the same text as sanitizing the bare payload. -/
theorem cleanGptJson_fenced (body : List Char) (hb : ∀ c ∈ body, c ≠ backtickChar) :
    cleanGptJson (fenceTag ++ body ++ fenceTicks) = cleanGptJson body := by
  unfold cleanGptJson
  rw [List.append_assoc, stripAll_fenced_tag body hb, stripAll_fenced_ticks body hb,
    stripAll_no_backtick fenceTag (by decide) body hb,
    stripAll_no_backtick fenceTicks (by decide) body hb]

/-- C9: fenced-JSON tolerance.  Sanitizing a response wrapped in a
```json ... ``` fence yields the same text - hence the same parse result -
as the unfenced response; and when the sanitized text still fails to
parse, `runAnalysis` fails the session with the parse error and saves
nothing. -/
theorem runAnalysis_fenced_json :
    (∀ body : List Char, (∀ c ∈ body, c ≠ backtickChar) →
      cleanGptJson (fenceTag ++ body ++ fenceTicks) = cleanGptJson body) ∧
    (∀ (parse : List Char → Except String AnalysisReport) (body : List Char),
      (∀ c ∈ body, c ≠ backtickChar) →
      parse (cleanGptJson (fenceTag ++ body ++ fenceTicks)) =
        parse (cleanGptJson body)) ∧
    (∀ (parse : List Char → Except String AnalysisReport) (content m : String)
      (backend : BackendOutcome) (mockNow refB userB sid ts : String)
      (history : List HistoryItem),
      parse (cleanGptJson content.toList) = Except.error m →
      runAnalysis parse (GptOutcome.ok content) backend mockNow refB userB sid ts
          history =
        { error := some ("오류: " ++ m), apiResult := none, algoResult := none
          history := history }) := by
  refine ⟨cleanGptJson_fenced, ?_, ?_⟩
  · intro parse body hb
    rw [cleanGptJson_fenced body hb]
  · intro parse content m backend mockNow refB userB sid ts history hparse
    unfold runAnalysis
    dsimp only
    rw [hparse]

/-- Witness for C9 at a concrete backtick-free body and an always-failing
parse oracle. -/
theorem runAnalysis_fenced_json_witness :
    (∀ c ∈ ("report").toList, c ≠ backtickChar) ∧
    cleanGptJson (fenceTag ++ ("report").toList ++ fenceTicks) =
      cleanGptJson ("report").toList ∧
    (fun _ : List Char => (Except.error ("bad") : Except String AnalysisReport))
        (cleanGptJson ("x").toList) = Except.error ("bad") ∧
    runAnalysis (fun _ => Except.error ("bad")) (GptOutcome.ok ("x"))
        (BackendOutcome.connectionError ("down")) "" "" "" "" "" [] =
      { error := some ("오류: " ++ "bad"), apiResult := none, algoResult := none
        history := [] } :=
  ⟨by decide,
    runAnalysis_fenced_json.1 ("report").toList (by decide),
    rfl,
    runAnalysis_fenced_json.2.2 (fun _ => Except.error ("bad")) ("x") ("bad")
      (BackendOutcome.connectionError ("down")) "" "" "" "" "" [] rfl⟩

/-- C7: deterministic-backend failures are absorbed, remote failures are
terminal.  When the backend call fails but the remote path parses, the
session completes without error: the backend's report is replaced by the
fallback whose `overallFeedback` carries the connection-failure marker, and
the session (both processed reports plus both images) is still appended to
history.  When the remote path fails, the whole session fails and history
is untouched. -/
theorem runAnalysis_backend_fallback :
    (∀ (parse : List Char → Except String AnalysisReport) (content : String)
      (backend : BackendOutcome) (mockNow refB userB sid ts : String)
      (history : List HistoryItem) (raw : AnalysisReport),
      parse (cleanGptJson content.toList) = Except.ok raw →
      isBackendFailure backend = true →
      runAnalysis parse (GptOutcome.ok content) backend mockNow refB userB sid ts
          history =
        { error := none
          apiResult := some (processReport raw true)
          algoResult := some (processReport
            { MOCK_ANALYSIS_RESULT mockNow with overallFeedback := fallbackFeedback }
            false)
          history := saveToHistory history
            { id := sid
              timestamp := ts
              refImageBase64 := refB
              userImageBase64 := userB
              apiResult := processReport raw true
              algoResult := processReport
                { MOCK_ANALYSIS_RESULT mockNow with
                    overallFeedback := fallbackFeedback } false } }) ∧
    (∀ mockNow : String,
      (processReport
        { MOCK_ANALYSIS_RESULT mockNow with overallFeedback := fallbackFeedback }
        false).overallFeedback = fallbackFeedback) ∧
    connectionFailureMarker.toList <:+: fallbackFeedback.toList ∧
    (∀ (parse : List Char → Except String AnalysisReport) (m : String)
      (backend : BackendOutcome) (mockNow refB userB sid ts : String)
      (history : List HistoryItem),
      runAnalysis parse (GptOutcome.err m) backend mockNow refB userB sid ts
          history =
        { error := some ("오류: " ++ m), apiResult := none, algoResult := none
          history := history }) := by
  refine ⟨?_, fun mockNow => rfl, by decide, fun parse m backend mockNow refB userB sid ts history => rfl⟩
  intro parse content backend mockNow refB userB sid ts history raw hparse hfail
  match backend, hfail with
  | BackendOutcome.httpError st txt, _ =>
    unfold runAnalysis fetchAlgorithmResult
    dsimp only
    rw [hparse]
  | BackendOutcome.connectionError msg, _ =>
    unfold runAnalysis fetchAlgorithmResult
    dsimp only
    rw [hparse]

/-- Witness for C7: a parsing remote response with a connection-failed
backend, and a failed remote response. -/
theorem runAnalysis_backend_fallback_witness :
    (fun _ : List Char => (Except.ok sampleReport : Except String AnalysisReport))
        (cleanGptJson ("x").toList) = Except.ok sampleReport ∧
    isBackendFailure (BackendOutcome.connectionError ("down")) = true ∧
    runAnalysis (fun _ => Except.ok sampleReport) (GptOutcome.ok ("x"))
        (BackendOutcome.connectionError ("down")) "" "" "" "" "" [] =
      { error := none
        apiResult := some (processReport sampleReport true)
        algoResult := some (processReport
          { MOCK_ANALYSIS_RESULT "" with overallFeedback := fallbackFeedback } false)
        history := saveToHistory []
          { id := ""
            timestamp := ""
            refImageBase64 := ""
            userImageBase64 := ""
            apiResult := processReport sampleReport true
            algoResult := processReport
              { MOCK_ANALYSIS_RESULT "" with
                  overallFeedback := fallbackFeedback } false } } ∧
    runAnalysis (fun _ => Except.ok sampleReport) (GptOutcome.err ("boom"))
        (BackendOutcome.ok sampleReport) "" "" "" "" "" [] =
      { error := some ("오류: " ++ "boom"), apiResult := none, algoResult := none
        history := [] } :=
  ⟨rfl, rfl,
    runAnalysis_backend_fallback.1 (fun _ => Except.ok sampleReport) ("x")
      (BackendOutcome.connectionError ("down")) "" "" "" "" "" [] sampleReport rfl rfl,
    runAnalysis_backend_fallback.2.2.2 (fun _ => Except.ok sampleReport) ("boom")
      (BackendOutcome.ok sampleReport) "" "" "" "" "" []⟩

end TryAngle

